import Mathlib

/-!
Shallow embedding of the signal-decision engine of the
`future-trading-bot` repository (file `signals.py`), together with
theorems settling the specification claims about it.

Modelling conventions:

* Prices, probabilities, scores and timestamps are rationals (`ℚ`);
  timestamps are seconds, so `lookback_hours` hours are
  `lookback_hours * 3600` seconds.
* `build_features` delegates all numeric work to the external `ta`
  library and to pandas; its output (the post-`dropna` feature frame
  `df_feat`) is therefore the quantification boundary: theorems range
  over an arbitrary `List FeatureRow`, covering every candle sequence.
* The sklearn `LogisticRegression` fit/score step is an external
  library call; it is passed in as an oracle `predict` mapping the
  fitted rows, their labels and the queried row to a probability.
* Network calls (`requests.post/get`) and their parsed JSON responses
  are passed in as oracles (`Bool` fetch-success flags, response
  lists, a per-headline response function).
* Pandas float semantics for `shift(-h)/close - 1.0` are modelled by
  `PFloat`: `nan` stands for NaN (shifted-out rows, 0/0), `posInf` and
  `negInf` for the ±inf produced by division by a zero close; the
  comparison `fwd > 0` on NaN is `False`, exactly as in numpy.
-/

namespace Signals

/-- result of a pandas float computation: a finite value, ±inf, or NaN. -/
inductive PFloat where
  | val (q : ℚ)
  | posInf
  | negInf
  | nan
deriving DecidableEq

/-- the numpy comparison `x > 0`: NaN compares as False. -/
def PFloat.gtZero : PFloat → Bool
  | .val q => decide (0 < q)
  | .posInf => true
  | .negInf => false
  | .nan => false

/-- one row of the feature frame `df_feat = build_features(df)` after
`dropna`: the close price plus the nine feature columns selected into `X`
in `price_model_signal`. -/
structure FeatureRow where
  close : ℚ
  ret1 : ℚ
  ret3 : ℚ
  ret6 : ℚ
  rsi : ℚ
  ema_spread : ℚ
  macd : ℚ
  macd_sig : ℚ
  price_bb_pos : ℚ
  atr : ℚ
deriving DecidableEq, Inhabited

/-- the row of the feature matrix `X = df_feat[["ret1",...,"atr"]]`. -/
def xrow (r : FeatureRow) : List ℚ :=
  [r.ret1, r.ret3, r.ret6, r.rsi, r.ema_spread, r.macd, r.macd_sig,
   r.price_bb_pos, r.atr]

/-- the forward return `fwd[i] = close.shift(-horizon)[i] / close[i] - 1.0`
with pandas float semantics: rows shifted past the end give NaN; a zero
denominator gives ±inf or NaN by the sign of the numerator. -/
def fwd_return (close : List ℚ) (horizon i : ℕ) : PFloat :=
  match close[i + horizon]?, close[i]? with
  | some a, some b =>
      if b ≠ 0 then .val (a / b - 1)
      else if 0 < a then .posInf
      else if a < 0 then .negInf
      else .nan
  | _, _ => .nan

/-- `make_label(df, horizon)`: `(fwd > 0).astype(int)` computed on the
close series of `df`; NaN rows (the last `horizon` ones) become 0. -/
def make_label (close : List ℚ) (horizon : ℕ) : List ℕ :=
  (List.range close.length).map fun i =>
    if (fwd_return close horizon i).gtZero then 1 else 0

/-- the feature matrix after the mutual truncation
`y = y.iloc[:len(X)]; X = X.iloc[:len(y)]` in `price_model_signal`. -/
def aligned_X (df_feat : List FeatureRow) (horizon_bars : ℕ) : List (List ℚ) :=
  let y := make_label (df_feat.map FeatureRow.close) horizon_bars
  let X := df_feat.map xrow
  let y2 := y.take X.length
  X.take y2.length

/-- the label vector after the mutual truncation in `price_model_signal`. -/
def aligned_y (df_feat : List FeatureRow) (horizon_bars : ℕ) : List ℕ :=
  let y := make_label (df_feat.map FeatureRow.close) horizon_bars
  let X := df_feat.map xrow
  y.take X.length

/-- the probability scored for the most recent row:
`clf.fit(X.iloc[:-1], y.iloc[:-1]); clf.predict_proba(X.iloc[[-1]])[0][1]`
with the logistic-regression fit/score abstracted as `predict`. -/
def scored_proba (df_feat : List FeatureRow) (horizon_bars : ℕ)
    (predict : List (List ℚ) → List ℕ → List ℚ → ℚ) : ℚ :=
  let X := aligned_X df_feat horizon_bars
  let y := aligned_y df_feat horizon_bars
  predict X.dropLast y.dropLast (X.getLastD [])

/-- the set of (row, label) pairs the classifier is fitted on:
`clf.fit(X.iloc[:-1], y.iloc[:-1])`, reached only when `len(X) >= 50`. -/
def training_pairs (df_feat : List FeatureRow) (horizon_bars : ℕ) :
    List (List ℚ × ℕ) :=
  let X := aligned_X df_feat horizon_bars
  let y := aligned_y df_feat horizon_bars
  if X.length < 50 then [] else (X.zip y).dropLast

/-- `price_model_signal(df, horizon_bars, min_proba)` returning
`(proba_up, flag)`; `df_feat` is the output of `build_features` and
`predict` abstracts the sklearn classifier. -/
def price_model_signal (df_feat : List FeatureRow) (horizon_bars : ℕ)
    (min_proba : ℚ)
    (predict : List (List ℚ) → List ℕ → List ℚ → ℚ) : ℚ × ℤ :=
  let X := aligned_X df_feat horizon_bars
  let y := aligned_y df_feat horizon_bars
  if X.length < 50 then ((1 : ℚ) / 2, 0)
  else
    let proba_up := predict X.dropLast y.dropLast (X.getLastD [])
    let _pred_label : ℤ := if (1 : ℚ) / 2 ≤ proba_up then 1 else 0
    if min_proba ≤ proba_up then (proba_up, 1)
    else if min_proba ≤ 1 - proba_up then (proba_up, 0)
    else (proba_up, -1)

/-- Python `str.lower()` on the character list of a string. -/
def lowerStr (s : String) : String := ⟨s.data.map Char.toLower⟩

/-- Python `str.strip()`: whitespace removed from both ends. -/
def stripStr (s : String) : String :=
  ⟨((s.data.dropWhile Char.isWhitespace).reverse.dropWhile
      Char.isWhitespace).reverse⟩

/-- substring test, `needle in hay` of Python. -/
def hasSub (needle hay : List Char) : Bool :=
  match hay with
  | [] => needle.isEmpty
  | _ :: t => needle.isPrefixOf hay || hasSub needle t

/-- outcome of one `requests.post` round-trip in `_hf_sentiment_finbert`,
as seen after `resp.json()`.

* `netFail`: the request, `raise_for_status` or `json()` raised.
* `listHeadDict d`: `out` is a non-empty Python list whose first element
  is a dict (the branch guarded by `isinstance(out[0], dict)`); `d` is
  that dict as key/value pairs.
* `listOther`: `out` is a list that is empty or whose first element is
  not a dict (this covers the actual `[[{label, score}, ...]]` shape the
  endpoint returns, whose first element is a list).
* `dictLS label score`: `out` is a dict carrying `label` and `score`.
* `otherShape`: any other JSON shape. -/
inductive HFResp where
  | netFail
  | listHeadDict (d : List (String × ℚ))
  | listOther
  | dictLS (label : String) (score : ℚ)
  | otherShape
deriving DecidableEq

/-- score appended for one headline by `_hf_sentiment_finbert`.
In the `listHeadDict` branch the source iterates `for x in out[0]` where
`out[0]` is a dict, so `x` ranges over the KEY strings; `x.get` then
raises `AttributeError`, which the surrounding `except` turns into `0.0`
(an empty dict instead yields `pos_score = neg_score = 0.0`): either way
the appended score is 0. -/
def score_of_resp : HFResp → ℚ
  | .netFail => 0
  | .listHeadDict _ => 0
  | .listOther => 0
  | .dictLS label score =>
      if hasSub "positive".data (lowerStr label).data then score
      else if hasSub "negative".data (lowerStr label).data then -score
      else 0
  | .otherShape => 0

/-- `_hf_sentiment_finbert(texts, hf_token)`: guard
`if not texts or not hf_token: return []`, then one score per text in
input order; `resp i` is the (oracle) outcome of the POST for `texts[i]`. -/
def hf_sentiment_finbert (texts : List String) (hf_token : String)
    (resp : ℕ → HFResp) : List ℚ :=
  if texts = [] ∨ hf_token = "" then []
  else (List.range texts.length).map fun i => score_of_resp (resp i)

/-- one item of the CryptoPanic `results` array, reduced to the fields
`_fetch_news_cryptopanic` reads: the optional `title` and `slug` strings
and the published timestamp. `pub = some t` models a timestamp string
that `datetime.fromisoformat` parses to `t` (seconds); `pub = none`
models a missing/unparsable one (`dt = None`). -/
structure CPItem where
  title : Option String
  slug : Option String
  pub : Option ℚ
deriving DecidableEq

/-- Python `x or y` on an optional string: `None` and `""` are falsy. -/
def orStr : Option String → String → String
  | some s, d => if s = "" then d else s
  | none, d => d

/-- the headline string `_fetch_news_cryptopanic` appends for one item,
or `none` when the item is skipped (`continue`): the stripped
title-or-slug, with `" (old)"` appended when a parsed timestamp is
strictly before the cutoff. -/
def cp_entry (cutoff : ℚ) (item : CPItem) : Option String :=
  let title := stripStr (orStr item.title (orStr item.slug ""))
  if title = "" then none
  else
    match item.pub with
    | none => some title
    | some dt => if cutoff ≤ dt then some title else some (title ++ " (old)")

/-- the `for item in results` loop of `_fetch_news_cryptopanic`: append
each entry, `break` once `len(titles) >= max_headlines` (checked AFTER
appending). -/
def cp_collect (cutoff : ℚ) (max_headlines : ℕ) :
    List CPItem → List String → List String
  | [], acc => acc
  | item :: rest, acc =>
      match cp_entry cutoff item with
      | none => cp_collect cutoff max_headlines rest acc
      | some t =>
          let acc2 := acc ++ [t]
          if max_headlines ≤ acc2.length then acc2
          else cp_collect cutoff max_headlines rest acc2

/-- `_fetch_news_cryptopanic(api_key, lookback_hours, max_headlines)`:
empty key or a failed/raising HTTP round-trip gives `[]`; otherwise the
loop over the fetched `results` (oracle). `now` is the current time in
seconds; the cutoff is `now - lookback_hours` hours. -/
def fetch_news_cryptopanic (api_key : String) (lookback_hours : ℤ)
    (max_headlines : ℕ) (fetchOk : Bool) (results : List CPItem)
    (now : ℚ) : List String :=
  if api_key = "" then []
  else if fetchOk = false then []
  else cp_collect (now - lookback_hours * 3600) max_headlines results []

/-- `_fetch_news_newsapi(api_key, lookback_hours, max_headlines)`:
empty key or a failed round-trip gives `[]`; otherwise the truthy-titled
articles are stripped and the list truncated with `[:max_headlines]`.
`articles` is the oracle list of optional `title` fields. -/
def fetch_news_newsapi (api_key : String) (max_headlines : ℕ)
    (fetchOk : Bool) (articles : List (Option String)) : List String :=
  if api_key = "" then []
  else if fetchOk = false then []
  else
    ((articles.filterMap fun t =>
        match t with
        | none => none
        | some s => if s = "" then none else some (stripStr s)).take
      max_headlines)

/-- the news sub-config read by `news_sentiment` via `cfg_news.get`. -/
structure NewsCfg where
  lookback_hours : ℤ := 6
  max_headlines : ℕ := 12
  source : String := "cryptopanic"
deriving DecidableEq

/-- the titles produced by the preferred-source branch of
`news_sentiment`: `if source == "cryptopanic" and cp_key: titles = ...`. -/
def preferred_titles (cfg : NewsCfg) (cp_key : String) (cpOk : Bool)
    (cpResults : List CPItem) (now : ℚ) : List String :=
  if lowerStr cfg.source = "cryptopanic" ∧ cp_key ≠ "" then
    fetch_news_cryptopanic cp_key cfg.lookback_hours cfg.max_headlines
      cpOk cpResults now
  else []

/-- the titles after the fallback `if not titles and na_key: titles = ...`. -/
def aggregated_titles (cfg : NewsCfg) (cp_key na_key : String)
    (cpOk : Bool) (cpResults : List CPItem) (naOk : Bool)
    (naArticles : List (Option String)) (now : ℚ) : List String :=
  let titles := preferred_titles cfg cp_key cpOk cpResults now
  if titles = [] ∧ na_key ≠ "" then
    fetch_news_newsapi na_key cfg.max_headlines naOk naArticles
  else titles

/-- `np.mean` on a list of rationals (callers guard against `[]`). -/
def mean (l : List ℚ) : ℚ := l.sum / l.length

/-- `news_sentiment(cfg_news)`: fetch titles with fallback, return 0.0
when no titles or no scores, else the mean FinBERT score. The three API
keys model the environment variables; network outcomes are oracles. -/
def news_sentiment (cfg : NewsCfg) (cp_key na_key hf_key : String)
    (cpOk : Bool) (cpResults : List CPItem) (naOk : Bool)
    (naArticles : List (Option String)) (now : ℚ)
    (resp : ℕ → HFResp) : ℚ :=
  let titles := aggregated_titles cfg cp_key na_key cpOk cpResults naOk
    naArticles now
  if titles = [] then 0
  else
    let scores := hf_sentiment_finbert titles hf_key resp
    if scores = [] then 0
    else mean scores

/-- the config keys `decide_direction` reads via `cfg.get`, with the
source defaults. -/
structure Config where
  pred_horizon_bars : ℕ := 3
  min_price_model_proba : ℚ := 11 / 20
  blend_weight_price : ℚ := 3 / 5
  blend_weight_news : ℚ := 2 / 5
  min_news_sentiment : ℚ := 1 / 10
  max_news_sentiment_for_short : ℚ := -(1 / 10)
  news : NewsCfg := {}
deriving DecidableEq

/-- the diagnostic dict returned alongside the side. -/
structure Diag where
  proba_up : ℚ
  news_sent : ℚ
  blended : ℚ
deriving DecidableEq

/-- Python `round(x, 3)` (claims never hit a rounding tie). -/
def round3 (q : ℚ) : ℚ := round (q * 1000) / 1000

/-- the body of `decide_direction` after `proba_up, _ =
price_model_signal(...)` and `s_news = news_sentiment(...)`: the pair
returned by the price model is consumed only through its first
component, mirroring the discarded `_`. -/
def blend_decide (sig : ℚ × ℤ) (s_news : ℚ) (cfg : Config) :
    String × Diag :=
  let proba_up := sig.1
  let w_p := cfg.blend_weight_price
  let w_n := cfg.blend_weight_news
  let price_comp := (proba_up - 1 / 2) * 2
  let blended := w_p * price_comp + w_n * s_news
  let side :=
    if 1 / 10 ≤ blended ∧ cfg.min_price_model_proba ≤ proba_up ∧
        cfg.min_news_sentiment ≤ s_news then "long"
    else if blended ≤ -(1 / 10) ∧ cfg.min_price_model_proba ≤ 1 - proba_up ∧
        s_news ≤ cfg.max_news_sentiment_for_short then "short"
    else "skip"
  (side, ⟨round3 proba_up, round3 s_news, round3 blended⟩)

/-- `decide_direction(df, cfg)`: the composition of the price model, the
news pipeline and the blender. -/
def decide_direction (df_feat : List FeatureRow) (cfg : Config)
    (predict : List (List ℚ) → List ℕ → List ℚ → ℚ)
    (cp_key na_key hf_key : String) (cpOk : Bool) (cpResults : List CPItem)
    (naOk : Bool) (naArticles : List (Option String)) (now : ℚ)
    (resp : ℕ → HFResp) : String × Diag :=
  blend_decide
    (price_model_signal df_feat cfg.pred_horizon_bars
      cfg.min_price_model_proba predict)
    (news_sentiment cfg.news cp_key na_key hf_key cpOk cpResults naOk
      naArticles now resp)
    cfg

theorem make_label_length (close : List ℚ) (horizon : ℕ) :
    (make_label close horizon).length = close.length := by
  simp [make_label]

theorem make_label_getElem (close : List ℚ) (horizon i : ℕ)
    (hi : i < close.length) :
    (make_label close horizon)[i]? =
      some (if (fwd_return close horizon i).gtZero then 1 else 0) := by
  simp [make_label, List.getElem?_map, List.getElem?_range, hi]

theorem aligned_X_eq (df_feat : List FeatureRow) (horizon : ℕ) :
    aligned_X df_feat horizon = df_feat.map xrow := by
  unfold aligned_X
  rw [List.take_of_length_le (by simp [make_label_length])]

theorem aligned_y_eq (df_feat : List FeatureRow) (horizon : ℕ) :
    aligned_y df_feat horizon =
      make_label (df_feat.map FeatureRow.close) horizon := by
  unfold aligned_y
  rw [List.take_of_length_le]
  simp [make_label_length]

theorem aligned_X_length (df_feat : List FeatureRow) (horizon : ℕ) :
    (aligned_X df_feat horizon).length = df_feat.length := by
  rw [aligned_X_eq]; simp

theorem aligned_y_length (df_feat : List FeatureRow) (horizon : ℕ) :
    (aligned_y df_feat horizon).length = df_feat.length := by
  rw [aligned_y_eq, make_label_length]; simp

theorem fwd_return_tail (close : List ℚ) (horizon i : ℕ)
    (hi : close.length ≤ i + horizon) :
    fwd_return close horizon i = PFloat.nan := by
  unfold fwd_return
  rw [List.getElem?_eq_none hi]

theorem cp_collect_eq (cutoff : ℚ) (maxh : ℕ) (items : List CPItem) :
    ∀ acc : List String, acc.length < max maxh 1 →
      cp_collect cutoff maxh items acc =
        (acc ++ items.filterMap (cp_entry cutoff)).take (max maxh 1) := by
  induction items with
  | nil =>
    intro acc hacc
    simp [cp_collect, List.take_of_length_le (le_of_lt hacc)]
  | cons item rest ih =>
    intro acc hacc
    simp only [cp_collect]
    rw [List.filterMap_cons]
    cases hent : cp_entry cutoff item with
    | none => simpa using ih acc hacc
    | some t =>
      simp only
      by_cases hstop : maxh ≤ (acc ++ [t]).length
      · rw [if_pos hstop]
        have hlen : (acc ++ [t]).length = max maxh 1 := by
          simp only [List.length_append, List.length_singleton] at hstop hacc ⊢
          omega
        have hsplit : acc ++ t :: rest.filterMap (cp_entry cutoff) =
            (acc ++ [t]) ++ rest.filterMap (cp_entry cutoff) := by simp
        rw [hsplit, ← hlen, List.take_left]
      · rw [if_neg hstop]
        have hlt : (acc ++ [t]).length < max maxh 1 := by
          simp only [List.length_append, List.length_singleton] at hstop hacc ⊢
          omega
        rw [ih (acc ++ [t]) hlt]
        congr 1
        simp

theorem fetch_news_cryptopanic_eq (api_key : String) (lb : ℤ) (maxh : ℕ)
    (results : List CPItem) (now : ℚ) (hkey : api_key ≠ "") :
    fetch_news_cryptopanic api_key lb maxh true results now =
      (results.filterMap (cp_entry (now - lb * 3600))).take (max maxh 1) := by
  simp only [fetch_news_cryptopanic, if_neg hkey]
  rw [if_neg (by simp)]
  exact cp_collect_eq _ _ _ []
    (lt_of_lt_of_le one_pos (le_max_right maxh 1))

/-- C3: for every feature frame with fewer than 50 aligned feature/label
rows (zero rows included), `price_model_signal` returns exactly
`(0.5, 0)`; the function is total, so no exception is possible. -/
theorem c3_neutral_default (df_feat : List FeatureRow) (horizon_bars : ℕ)
    (min_proba : ℚ) (predict : List (List ℚ) → List ℕ → List ℚ → ℚ)
    (hlt : df_feat.length < 50) :
    price_model_signal df_feat horizon_bars min_proba predict =
      ((1 : ℚ) / 2, 0) := by
  unfold price_model_signal
  rw [if_pos]
  rw [aligned_X_length]
  exact hlt

/-- C3 witness: the empty feature frame has fewer than 50 rows and the
classifier returns the neutral default `(0.5, 0)`. -/
theorem c3_neutral_default_witness :
    ([] : List FeatureRow).length < 50 ∧
      price_model_signal [] 3 (11 / 20) (fun _ _ _ => 0) =
        ((1 : ℚ) / 2, 0) :=
  ⟨by decide, c3_neutral_default [] 3 (11 / 20) (fun _ _ _ => 0) (by decide)⟩

/-- C9: `make_label` is total and length-preserving, every emitted label
is 0 or 1, and each of the last `horizon` positions carries the label 0:
the forward return there is NaN, and the numpy comparison `NaN > 0`
evaluates to False rather than marking the row undefined or dropping it. -/
theorem c9_label_tail_zero (close : List ℚ) (horizon : ℕ)
    (_hh : 1 ≤ horizon) :
    (make_label close horizon).length = close.length
    ∧ (∀ i, close.length ≤ i + horizon → i < close.length →
        (make_label close horizon)[i]? = some 0)
    ∧ (∀ (i x : ℕ), (make_label close horizon)[i]? = some x → x = 0 ∨ x = 1)
    ∧ (∀ i, close.length ≤ i + horizon →
        fwd_return close horizon i = PFloat.nan)
    ∧ PFloat.nan.gtZero = false := by
  refine ⟨make_label_length close horizon, ?_, ?_, ?_, rfl⟩
  · intro i htail hi
    rw [make_label_getElem close horizon i hi, fwd_return_tail close horizon i htail]
    rfl
  · intro i x hx
    rcases Nat.lt_or_ge i close.length with hi | hi
    · rw [make_label_getElem close horizon i hi] at hx
      cases hgt : (fwd_return close horizon i).gtZero <;>
        simp [hgt] at hx <;> omega
    · rw [List.getElem?_eq_none (by rw [make_label_length]; exact hi)] at hx
      exact absurd hx (by simp)
  · intro i htail
    exact fwd_return_tail close horizon i htail

/-- C9 witness: a concrete five-bar close series with horizon 3. -/
theorem c9_label_tail_zero_witness :
    1 ≤ 3 ∧
      ((make_label [1, 2, 3, 2, 1] 3).length = ([1, 2, 3, 2, 1] : List ℚ).length
      ∧ (∀ i, ([1, 2, 3, 2, 1] : List ℚ).length ≤ i + 3 →
          i < ([1, 2, 3, 2, 1] : List ℚ).length →
          (make_label [1, 2, 3, 2, 1] 3)[i]? = some 0)
      ∧ (∀ (i x : ℕ), (make_label [1, 2, 3, 2, 1] 3)[i]? = some x → x = 0 ∨ x = 1)
      ∧ (∀ i, ([1, 2, 3, 2, 1] : List ℚ).length ≤ i + 3 →
          fwd_return [1, 2, 3, 2, 1] 3 i = PFloat.nan)
      ∧ PFloat.nan.gtZero = false) :=
  ⟨by decide, c9_label_tail_zero [1, 2, 3, 2, 1] 3 (by decide)⟩

/-- C1 counterexample: with horizon 2 and a 50-row feature frame the
fitted training set keeps 49 rows, so it is NOT restricted to the
48 rows whose labels are defined: the claim that all of the last
`horizon` rows are excluded from training fails. -/
theorem c1_counterexample :
    ¬ ((training_pairs (List.replicate 50 (default : FeatureRow)) 2).length
        ≤ (List.replicate 50 (default : FeatureRow)).length - 2) := by
  decide

/-- C1 amended: the label of each of the last `horizon` feature rows is
undefined (NaN forward return), but the fit excludes only the single
most recent row: `training_pairs` is the zip of features and labels with
exactly the last entry dropped, so it has `n - 1` rows (covering indices
`0 .. n-2`) while the scored row is the one at index `n - 1` — hence the
scored most recent row is never among the training rows, while for
`horizon ≥ 2` the other undefined-label rows DO remain in training with
label 0. -/
theorem c1_training_rows (df_feat : List FeatureRow) (horizon : ℕ)
    (_hh : 1 ≤ horizon) (h50 : 50 ≤ df_feat.length) :
    (∀ i, df_feat.length ≤ i + horizon →
      fwd_return (df_feat.map FeatureRow.close) horizon i = PFloat.nan)
    ∧ training_pairs df_feat horizon =
        ((aligned_X df_feat horizon).zip (aligned_y df_feat horizon)).dropLast
    ∧ (training_pairs df_feat horizon).length = df_feat.length - 1
    ∧ ((aligned_X df_feat horizon).zip (aligned_y df_feat horizon)).length
        = df_feat.length := by
  have hzip : ((aligned_X df_feat horizon).zip
      (aligned_y df_feat horizon)).length = df_feat.length := by
    rw [List.length_zip, aligned_X_length, aligned_y_length, min_self]
  refine ⟨?_, ?_, ?_, hzip⟩
  · intro i htail
    exact fwd_return_tail _ horizon i (by simpa using htail)
  · unfold training_pairs
    rw [if_neg (by rw [aligned_X_length]; omega)]
  · unfold training_pairs
    rw [if_neg (by rw [aligned_X_length]; omega)]
    rw [List.length_dropLast, hzip]

/-- C1 amended witness: a 50-row feature frame with horizon 1. -/
theorem c1_training_rows_witness :
    1 ≤ 1 ∧ 50 ≤ (List.replicate 50 (default : FeatureRow)).length ∧
      ((∀ i, (List.replicate 50 (default : FeatureRow)).length ≤ i + 1 →
        fwd_return ((List.replicate 50 (default : FeatureRow)).map
          FeatureRow.close) 1 i = PFloat.nan)
      ∧ training_pairs (List.replicate 50 (default : FeatureRow)) 1 =
          ((aligned_X (List.replicate 50 (default : FeatureRow)) 1).zip
            (aligned_y (List.replicate 50 (default : FeatureRow)) 1)).dropLast
      ∧ (training_pairs (List.replicate 50 (default : FeatureRow)) 1).length =
          (List.replicate 50 (default : FeatureRow)).length - 1
      ∧ ((aligned_X (List.replicate 50 (default : FeatureRow)) 1).zip
          (aligned_y (List.replicate 50 (default : FeatureRow)) 1)).length =
          (List.replicate 50 (default : FeatureRow)).length) :=
  ⟨by decide, by decide,
    c1_training_rows (List.replicate 50 (default : FeatureRow)) 1
      (by decide) (by decide)⟩

/-- C8: when at least 50 aligned rows exist, `price_model_signal`
returns the scored probability with flag 1 when `proba_up ≥ min_proba`,
flag 0 when `1 - proba_up ≥ min_proba`, and flag -1 otherwise; and the
downstream blender consumes the price-model pair only through its first
component, so the flag is discarded. -/
theorem c8_flag_rule (df_feat : List FeatureRow) (horizon_bars : ℕ)
    (min_proba : ℚ) (predict : List (List ℚ) → List ℕ → List ℚ → ℚ)
    (h50 : 50 ≤ df_feat.length) :
    price_model_signal df_feat horizon_bars min_proba predict =
      (scored_proba df_feat horizon_bars predict,
        if min_proba ≤ scored_proba df_feat horizon_bars predict then 1
        else if min_proba ≤ 1 - scored_proba df_feat horizon_bars predict
          then 0 else -1)
    ∧ (∀ (q : ℚ) (flag1 flag2 : ℤ) (s_news : ℚ) (cfg : Config),
        blend_decide (q, flag1) s_news cfg =
          blend_decide (q, flag2) s_news cfg) := by
  constructor
  · unfold price_model_signal scored_proba
    rw [if_neg (by rw [aligned_X_length]; omega)]
    dsimp only
    split
    · rfl
    · split <;> rfl
  · intro q flag1 flag2 s_news cfg
    rfl

/-- C8 witness: a 50-row frame scored at probability 0.7 with the
default threshold 0.55 gets flag 1. -/
theorem c8_flag_rule_witness :
    50 ≤ (List.replicate 50 (default : FeatureRow)).length ∧
      (price_model_signal (List.replicate 50 (default : FeatureRow)) 3
          (11 / 20) (fun _ _ _ => 7 / 10) =
        (scored_proba (List.replicate 50 (default : FeatureRow)) 3
            (fun _ _ _ => 7 / 10),
          if (11 : ℚ) / 20 ≤ scored_proba
              (List.replicate 50 (default : FeatureRow)) 3
              (fun _ _ _ => 7 / 10) then 1
          else if (11 : ℚ) / 20 ≤ 1 - scored_proba
              (List.replicate 50 (default : FeatureRow)) 3
              (fun _ _ _ => 7 / 10) then 0 else -1)
      ∧ (∀ (q : ℚ) (flag1 flag2 : ℤ) (s_news : ℚ) (cfg : Config),
          blend_decide (q, flag1) s_news cfg =
            blend_decide (q, flag2) s_news cfg)) :=
  ⟨by decide,
    c8_flag_rule (List.replicate 50 (default : FeatureRow)) 3 (11 / 20)
      (fun _ _ _ => 7 / 10) (by decide)⟩

/-- C4: the blender computes `price_component = (proba_up - 0.5) * 2`
and `blended = w_price * price_component + w_news * sentiment`, and
emits "long" exactly when `blended ≥ 0.1`, `proba_up ≥
min_price_model_proba` and `sentiment ≥ min_news_sentiment`; for
`proba_up = 0.70`, `sentiment = 0.50` and the default config the blended
score is 0.44 and the decision is "long". -/
theorem c4_blender_long (proba_up s_news : ℚ) (flag : ℤ) (cfg : Config) :
    ((blend_decide (proba_up, flag) s_news cfg).1 = "long" ↔
      (1 / 10 ≤ cfg.blend_weight_price * ((proba_up - 1 / 2) * 2) +
          cfg.blend_weight_news * s_news
        ∧ cfg.min_price_model_proba ≤ proba_up
        ∧ cfg.min_news_sentiment ≤ s_news))
    ∧ blend_decide ((7 : ℚ) / 10, 1) (1 / 2) {} =
        ("long", ⟨7 / 10, 1 / 2, 11 / 25⟩) := by
  constructor
  · unfold blend_decide
    dsimp only
    split
    · next hcond => exact iff_of_true rfl hcond
    · next hcond =>
      split
      · exact iff_of_false (by simp) hcond
      · exact iff_of_false (by simp) hcond
  · unfold blend_decide
    dsimp only
    rw [if_pos (by norm_num)]
    simp only [Prod.mk.injEq, Diag.mk.injEq]
    norm_num [round3, round_eq]

/-- C5: with the default news thresholds, an aggregate sentiment of
exactly 0.0 forces the decision "skip" for every probability in `[0,1]`. -/
theorem c5_zero_sentiment_skip (proba_up : ℚ) (flag : ℤ) (cfg : Config)
    (hmin : cfg.min_news_sentiment = 1 / 10)
    (hmax : cfg.max_news_sentiment_for_short = -(1 / 10))
    (_h0 : 0 ≤ proba_up) (_h1 : proba_up ≤ 1) :
    (blend_decide (proba_up, flag) 0 cfg).1 = "skip" := by
  unfold blend_decide
  dsimp only
  rw [if_neg, if_neg]
  · rintro ⟨-, -, hs⟩
    rw [hmax] at hs
    norm_num at hs
  · rintro ⟨-, -, hs⟩
    rw [hmin] at hs
    norm_num at hs

/-- C5 witness: probability 0.7 with zero sentiment and the default
config is skipped. -/
theorem c5_zero_sentiment_skip_witness :
    ({} : Config).min_news_sentiment = 1 / 10
    ∧ ({} : Config).max_news_sentiment_for_short = -(1 / 10)
    ∧ (0 : ℚ) ≤ 7 / 10 ∧ (7 : ℚ) / 10 ≤ 1
    ∧ (blend_decide ((7 : ℚ) / 10, 1) 0 {}).1 = "skip" :=
  ⟨rfl, rfl, by norm_num, by norm_num,
    c5_zero_sentiment_skip (7 / 10) 1 {} rfl rfl
      (by norm_num) (by norm_num)⟩

/-- C2 counterexample: with an empty Hugging Face token the scorer
returns `[]` for a one-headline input, so the output length differs from
the input length and the claim fails as stated. -/
theorem c2_counterexample :
    (hf_sentiment_finbert ["ETH rallies"] "" (fun _ => HFResp.netFail)).length
      ≠ (["ETH rallies"] : List String).length := by
  decide

/-- C2 amended: provided the Hugging Face token is non-empty, the score
list has exactly the length of the input, the score at each position `k`
is a function of that position's response alone (so a failure at `k`
cannot change any other position), and a failed response scores 0.0. -/
theorem c2_scorer_pointwise (texts : List String) (hf_token : String)
    (resp : ℕ → HFResp) (htok : hf_token ≠ "") :
    (hf_sentiment_finbert texts hf_token resp).length = texts.length
    ∧ (∀ k : ℕ, k < texts.length →
        (hf_sentiment_finbert texts hf_token resp)[k]? =
          some (score_of_resp (resp k)))
    ∧ score_of_resp HFResp.netFail = 0 := by
  rcases eq_or_ne texts [] with hte | hte
  · subst hte
    refine ⟨by simp [hf_sentiment_finbert], ?_, rfl⟩
    intro k hk
    simp at hk
  · have hguard : ¬ (texts = [] ∨ hf_token = "") := by
      rintro (h | h)
      · exact hte h
      · exact htok h
    refine ⟨?_, ?_, rfl⟩
    · simp [hf_sentiment_finbert, if_neg hguard]
    · intro k hk
      unfold hf_sentiment_finbert
      rw [if_neg hguard]
      simp [List.getElem?_map, List.getElem?_range, hk]

/-- C2 amended witness: two headlines with a non-empty token; the first
response fails and scores 0.0, the second scores 0.5, and the output has
length 2. -/
theorem c2_scorer_pointwise_witness :
    ("token" : String) ≠ ""
    ∧ ((hf_sentiment_finbert ["ETH dips", "ETH soars"] "token"
          (fun i => if i = 0 then HFResp.netFail
            else HFResp.dictLS "positive" (1 / 2))).length =
        (["ETH dips", "ETH soars"] : List String).length
      ∧ (∀ k : ℕ, k < (["ETH dips", "ETH soars"] : List String).length →
          (hf_sentiment_finbert ["ETH dips", "ETH soars"] "token"
            (fun i => if i = 0 then HFResp.netFail
              else HFResp.dictLS "positive" (1 / 2)))[k]? =
            some (score_of_resp ((fun i => if i = 0 then HFResp.netFail
              else HFResp.dictLS "positive" (1 / 2)) k)))
      ∧ score_of_resp HFResp.netFail = 0) :=
  ⟨by decide,
    c2_scorer_pointwise ["ETH dips", "ETH soars"] "token"
      (fun i => if i = 0 then HFResp.netFail
        else HFResp.dictLS "positive" (1 / 2)) (by decide)⟩

/-- C10: with an empty (or unset) `HUGGINGFACE_API_TOKEN` the scorer
returns `[]` for every input, and `news_sentiment` returns exactly 0.0
no matter how many headlines were fetched. -/
theorem c10_empty_token_zero (texts : List String) (resp : ℕ → HFResp)
    (cfg : NewsCfg) (cp_key na_key : String) (cpOk : Bool)
    (cpResults : List CPItem) (naOk : Bool)
    (naArticles : List (Option String)) (now : ℚ) :
    hf_sentiment_finbert texts "" resp = []
    ∧ news_sentiment cfg cp_key na_key "" cpOk cpResults naOk naArticles
        now resp = 0 := by
  have hempty : ∀ ts : List String, hf_sentiment_finbert ts "" resp = [] := by
    intro ts
    unfold hf_sentiment_finbert
    rw [if_pos (Or.inr rfl)]
  refine ⟨hempty texts, ?_⟩
  unfold news_sentiment
  dsimp only
  split
  · rfl
  · rw [hempty]
    simp

/-- C6 counterexample: with `max_headlines = 0` the CryptoPanic fetcher
still returns one headline, because the `break` is checked only after
appending — so the output is NOT always at most `max_headlines` long. -/
theorem c6_counterexample :
    ¬ ((fetch_news_cryptopanic "key" 6 0 true
        [{ title := some "ETH up", slug := none, pub := none }] 0).length
          ≤ 0) := by
  decide

/-- C6 amended: whenever `max_headlines ≥ 1` both fetchers return at
most `max_headlines` headlines (for `max_headlines = 0` the CryptoPanic
loop can return one), and whenever the preferred source yields zero
headlines the aggregate title list is exactly the secondary (NewsAPI)
fetcher's output. -/
theorem c6_cap_and_fallback (cfg : NewsCfg) (cp_key na_key : String)
    (cpOk naOk : Bool) (cpResults : List CPItem)
    (naArticles : List (Option String)) (now : ℚ)
    (hm : 1 ≤ cfg.max_headlines) :
    (fetch_news_cryptopanic cp_key cfg.lookback_hours cfg.max_headlines
        cpOk cpResults now).length ≤ cfg.max_headlines
    ∧ (fetch_news_newsapi na_key cfg.max_headlines naOk
        naArticles).length ≤ cfg.max_headlines
    ∧ (preferred_titles cfg cp_key cpOk cpResults now = [] →
        aggregated_titles cfg cp_key na_key cpOk cpResults naOk naArticles
            now =
          fetch_news_newsapi na_key cfg.max_headlines naOk naArticles) := by
  refine ⟨?_, ?_, ?_⟩
  · rcases eq_or_ne cp_key "" with hk | hk
    · simp [fetch_news_cryptopanic, hk]
    · cases cpOk with
      | false => simp [fetch_news_cryptopanic, hk]
      | true =>
        rw [fetch_news_cryptopanic_eq cp_key _ _ _ _ hk]
        calc ((cpResults.filterMap
              (cp_entry (now - cfg.lookback_hours * 3600))).take
                (max cfg.max_headlines 1)).length
            ≤ max cfg.max_headlines 1 := List.length_take_le _ _
          _ = cfg.max_headlines := Nat.max_eq_left hm
  · unfold fetch_news_newsapi
    split
    · simp
    · split
      · simp
      · exact List.length_take_le _ _
  · intro hpref
    unfold aggregated_titles
    dsimp only
    rw [hpref]
    rcases eq_or_ne na_key "" with hk | hk
    · rw [if_neg (by simp [hk]), hk]
      simp [fetch_news_newsapi]
    · rw [if_pos ⟨rfl, hk⟩]

/-- C6 amended witness: default news config (`max_headlines = 12`), both
keys present, one fetched item. -/
theorem c6_cap_and_fallback_witness :
    1 ≤ ({} : NewsCfg).max_headlines ∧
      ((fetch_news_cryptopanic "cpkey" ({} : NewsCfg).lookback_hours
          ({} : NewsCfg).max_headlines true
          [{ title := some "ETH up", slug := none, pub := none }]
          0).length ≤ ({} : NewsCfg).max_headlines
      ∧ (fetch_news_newsapi "nakey" ({} : NewsCfg).max_headlines true
          [some "ETH dips"]).length ≤ ({} : NewsCfg).max_headlines
      ∧ (preferred_titles {} "cpkey" true
            [{ title := some "ETH up", slug := none, pub := none }] 0 = [] →
          aggregated_titles {} "cpkey" "nakey" true
              [{ title := some "ETH up", slug := none, pub := none }] true
              [some "ETH dips"] 0 =
            fetch_news_newsapi "nakey" ({} : NewsCfg).max_headlines true
              [some "ETH dips"])) :=
  ⟨by decide,
    c6_cap_and_fallback {} "cpkey" "nakey" true true
      [{ title := some "ETH up", slug := none, pub := none }]
      [some "ETH dips"] 0 (by decide)⟩

/-- C7: the CryptoPanic fetcher equals the per-item entry map truncated
at the capacity bound, an item older than the cutoff (with a non-empty
stripped title) yields its title with the marker `" (old)"` appended
rather than being excluded — so it occupies a slot toward
`max_headlines` like any other headline — and `news_sentiment` hands the
aggregated title list (stale, marked titles included) to the sentiment
scorer unchanged. -/
theorem c7_stale_included (cp_key : String) (lb : ℤ) (maxh : ℕ)
    (results : List CPItem) (now : ℚ) (hkey : cp_key ≠ "") :
    fetch_news_cryptopanic cp_key lb maxh true results now =
      (results.filterMap (cp_entry (now - lb * 3600))).take (max maxh 1)
    ∧ (∀ (item : CPItem) (dt : ℚ), item.pub = some dt →
        dt < now - lb * 3600 →
        stripStr (orStr item.title (orStr item.slug "")) ≠ "" →
        cp_entry (now - lb * 3600) item =
          some (stripStr (orStr item.title (orStr item.slug "")) ++
            " (old)"))
    ∧ (∀ (cfg : NewsCfg) (na_key hf_key : String) (cpOk naOk : Bool)
        (naArticles : List (Option String)) (resp : ℕ → HFResp),
        aggregated_titles cfg cp_key na_key cpOk results naOk naArticles
          now ≠ [] →
        news_sentiment cfg cp_key na_key hf_key cpOk results naOk
            naArticles now resp =
          (if hf_sentiment_finbert
              (aggregated_titles cfg cp_key na_key cpOk results naOk
                naArticles now) hf_key resp = [] then 0
           else mean (hf_sentiment_finbert
              (aggregated_titles cfg cp_key na_key cpOk results naOk
                naArticles now) hf_key resp))) := by
  refine ⟨fetch_news_cryptopanic_eq cp_key lb maxh results now hkey, ?_, ?_⟩
  · intro item dt hpub hold hne
    unfold cp_entry
    rw [if_neg hne, hpub]
    dsimp only
    rw [if_neg (not_le_of_lt hold)]
  · intro cfg na_key hf_key cpOk naOk naArticles resp hne
    unfold news_sentiment
    dsimp only
    rw [if_neg hne]

/-- C7 witness: one stale item (published before the cutoff) with the
CryptoPanic key present. -/
theorem c7_stale_included_witness :
    ("cpkey" : String) ≠ "" ∧
      (fetch_news_cryptopanic "cpkey" 6 12 true
          [{ title := some "ETH slides", slug := none, pub := some 0 }]
          50000 =
        ([{ title := some "ETH slides", slug := none,
            pub := some 0 }].filterMap
          (cp_entry ((50000 : ℚ) - (6 : ℤ) * 3600))).take (max 12 1)
      ∧ (∀ (item : CPItem) (dt : ℚ), item.pub = some dt →
          dt < (50000 : ℚ) - (6 : ℤ) * 3600 →
          stripStr (orStr item.title (orStr item.slug "")) ≠ "" →
          cp_entry ((50000 : ℚ) - (6 : ℤ) * 3600) item =
            some (stripStr (orStr item.title (orStr item.slug "")) ++
              " (old)"))
      ∧ (∀ (cfg : NewsCfg) (na_key hf_key : String) (cpOk naOk : Bool)
          (naArticles : List (Option String)) (resp : ℕ → HFResp),
          aggregated_titles cfg "cpkey" na_key cpOk
            [{ title := some "ETH slides", slug := none, pub := some 0 }]
            naOk naArticles 50000 ≠ [] →
          news_sentiment cfg "cpkey" na_key hf_key cpOk
              [{ title := some "ETH slides", slug := none, pub := some 0 }]
              naOk naArticles 50000 resp =
            (if hf_sentiment_finbert
                (aggregated_titles cfg "cpkey" na_key cpOk
                  [{ title := some "ETH slides", slug := none,
                     pub := some 0 }] naOk naArticles 50000) hf_key
                resp = [] then 0
             else mean (hf_sentiment_finbert
                (aggregated_titles cfg "cpkey" na_key cpOk
                  [{ title := some "ETH slides", slug := none,
                     pub := some 0 }] naOk naArticles 50000) hf_key
                resp)))) :=
  ⟨by decide,
    c7_stale_included "cpkey" 6 12
      [{ title := some "ETH slides", slug := none, pub := some 0 }]
      50000 (by decide)⟩

end Signals
